import Mathlib

/-!
Shallow embedding of the opensearch-benchmark-operator status-reconciliation
core: the execution-phase state machine of src/benchmark/status.py, the
backend-relation selection of src/benchmark/relation_manager.py, the
database-model validation of src/benchmark/constants.py, the service cleanup
of src/benchmark/service.py and the charm-level wrapper of
src/benchmark/benchmark_charm.py.
-/

set_option autoImplicit false

/-- Execution phases of the benchmark, from DPBenchmarkExecStatus in
src/benchmark/constants.py. -/
inductive DPBenchmarkExecStatus where
  | UNSET
  | PREPARED
  | RUNNING
  | STOPPED
  | ERROR
deriving DecidableEq

/-- Status of one database relation, from DatabaseRelationStatus in
src/benchmark/constants.py. -/
inductive DatabaseRelationStatus where
  | NOT_AVAILABLE
  | AVAILABLE
  | CONFIGURED
  | ERROR
deriving DecidableEq

/-- Error taxonomy of the charm, from the DPBenchmarkError subclasses in
src/benchmark/constants.py.  isInWrongState carries the unit phase and the
app phase, as DPBenchmarkIsInWrongStateError does. -/
inductive BenchError where
  | isInWrongState (unit_state : DPBenchmarkExecStatus) (app_state : DPBenchmarkExecStatus)
  | multipleRelationsToDB
  | missingOptions
  | execError
  | execFailed
deriving DecidableEq

instance {ε α : Type} [DecidableEq ε] [DecidableEq α] : DecidableEq (Except ε α) :=
  fun x y =>
    match x, y with
    | Except.ok a, Except.ok b =>
        if h : a = b then isTrue (by rw [h])
        else isFalse (by intro hc; cases hc; exact h rfl)
    | Except.error a, Except.error b =>
        if h : a = b then isTrue (by rw [h])
        else isFalse (by intro hc; cases hc; exact h rfl)
    | Except.ok _, Except.error _ => isFalse (by intro hc; cases hc)
    | Except.error _, Except.ok _ => isFalse (by intro hc; cases hc)

/-- Observable state of the local worker handle: the values the four
predicates of DPBenchmarkService (src/benchmark/service.py) return when
BenchmarkStatus queries them. -/
structure DPBenchmarkServiceState where
  is_prepared : Bool
  is_failed : Bool
  is_running : Bool
  is_stopped : Bool
deriving DecidableEq

/-- Contents of the peer relation databags as seen by one unit: the app
databag's "status" key, this unit's own "status" key, and the "status" keys
of every other unit in the relation (none when the key is absent). -/
structure RelationData where
  appStatus : Option DPBenchmarkExecStatus
  unitStatus : Option DPBenchmarkExecStatus
  otherUnits : List (Option DPBenchmarkExecStatus)
deriving DecidableEq

/-- State one reconciliation cycle of BenchmarkStatus observes: the peer
relation (none when the relation does not exist), whether this unit is the
leader, the number of planned units, and the worker-handle state. -/
structure StatusState where
  relation : Option RelationData
  isLeader : Bool
  plannedUnits : Nat
  svc : DPBenchmarkServiceState
deriving DecidableEq

namespace BenchmarkStatus

/-- BenchmarkStatus.app_status (src/benchmark/status.py): none when the
relation is absent, else the app databag's "status" key with default UNSET. -/
def app_status (st : StatusState) : Option DPBenchmarkExecStatus :=
  match st.relation with
  | none => none
  | some r => some (r.appStatus.getD DPBenchmarkExecStatus.UNSET)

/-- BenchmarkStatus.unit_status (src/benchmark/status.py): none when the
relation is absent, else this unit's "status" key with default UNSET. -/
def unit_status (st : StatusState) : Option DPBenchmarkExecStatus :=
  match st.relation with
  | none => none
  | some r => some (r.unitStatus.getD DPBenchmarkExecStatus.UNSET)

/-- BenchmarkStatus.set (src/benchmark/status.py): with no relation, a
no-op; otherwise write the unit databag's "status" key, and additionally the
app databag's "status" key when this unit is the leader. -/
def set (st : StatusState) (status : DPBenchmarkExecStatus) : StatusState :=
  match st.relation with
  | none => st
  | some r =>
      let r1 := if st.isLeader then { r with appStatus := some status } else r
      { st with relation := some { r1 with unitStatus := some status } }

/-- BenchmarkStatus._has_error_happened (src/benchmark/status.py): true when
any other unit's record is the ERROR value, or this unit's record or the app
record reads back as ERROR. -/
def has_error_happened (r : RelationData) : Bool :=
  r.otherUnits.any (fun u => decide (u = some DPBenchmarkExecStatus.ERROR))
  || decide (r.unitStatus.getD DPBenchmarkExecStatus.UNSET = DPBenchmarkExecStatus.ERROR)
  || decide (r.appStatus.getD DPBenchmarkExecStatus.UNSET = DPBenchmarkExecStatus.ERROR)

/-- BenchmarkStatus.service_status (src/benchmark/status.py): derive the
worker phase from the service predicates, in source order. -/
def service_status (svc : DPBenchmarkServiceState) : DPBenchmarkExecStatus :=
  if svc.is_prepared = false then DPBenchmarkExecStatus.UNSET
  else if svc.is_failed then DPBenchmarkExecStatus.ERROR
  else if svc.is_running then DPBenchmarkExecStatus.RUNNING
  else if svc.is_stopped then DPBenchmarkExecStatus.STOPPED
  else DPBenchmarkExecStatus.PREPARED

/-- BenchmarkStatus.check (src/benchmark/status.py): the reconciliation
state machine.  Returns the resulting phase (or the raised
DPBenchmarkIsInWrongStateError) together with the databag state after the
cycle, which the call may have updated through set. -/
def check (st : StatusState) :
    Except BenchError DPBenchmarkExecStatus × StatusState :=
  match st.relation with
  | none => (Except.ok (service_status st.svc), st)
  | some r =>
    if st.plannedUnits ≤ 1 then
      (Except.ok (service_status st.svc), st)
    else if has_error_happened r then
      (Except.ok DPBenchmarkExecStatus.ERROR, st)
    else if st.isLeader then
      (Except.ok (service_status st.svc), set st (service_status st.svc))
    else
      let st1 := set st (service_status st.svc)
      if service_status st.svc = r.appStatus.getD DPBenchmarkExecStatus.UNSET then
        (Except.ok (service_status st.svc), st1)
      else
        (Except.error
          (BenchError.isInWrongState (service_status st.svc)
            (r.appStatus.getD DPBenchmarkExecStatus.UNSET)), st1)

end BenchmarkStatus

namespace DatabaseRelationManager

/-- Loop body of DatabaseRelationManager.check
(src/benchmark/relation_manager.py): fold over the statuses of the
configured relation endpoints, carrying the aggregate status; a second
non-NOT_AVAILABLE relation raises DPBenchmarkMultipleRelationsToDBError. -/
def check_go (rels : List DatabaseRelationStatus) (status : DatabaseRelationStatus) :
    Except BenchError DatabaseRelationStatus :=
  match rels with
  | [] => Except.ok status
  | s :: rest =>
    if s ≠ DatabaseRelationStatus.NOT_AVAILABLE then
      if status ≠ DatabaseRelationStatus.NOT_AVAILABLE then
        Except.error BenchError.multipleRelationsToDB
      else check_go rest s
    else check_go rest status

/-- DatabaseRelationManager.check (src/benchmark/relation_manager.py):
aggregate the statuses of all candidate relations, starting from
NOT_AVAILABLE. -/
def check (rels : List DatabaseRelationStatus) : Except BenchError DatabaseRelationStatus :=
  check_go rels DatabaseRelationStatus.NOT_AVAILABLE

/-- DatabaseRelationManager.get_db_config
(src/benchmark/relation_manager.py): walk the candidate relations in order,
each carried here as its relation status paired with the database options it
would build, and return the options of the first CONFIGURED one, or none. -/
def get_db_config {α : Type} (rels : List (DatabaseRelationStatus × α)) : Option α :=
  match rels with
  | [] => none
  | (s, opts) :: rest =>
    if s = DatabaseRelationStatus.CONFIGURED then some opts
    else get_db_config rest

/-- DPBenchmarkExecutionModel (src/benchmark/constants.py), with the nested
database model abstracted as the type of whatever get_db_config returned. -/
structure ExecutionModel (α : Type) where
  threads : Int
  duration : Int
  db_info : α
deriving DecidableEq

/-- DatabaseRelationManager.get_execution_options
(src/benchmark/relation_manager.py): none when get_db_config gives none,
else the execution model built from the charm config and the db options. -/
def get_execution_options {α : Type} (threads duration : Int)
    (rels : List (DatabaseRelationStatus × α)) : Option (ExecutionModel α) :=
  match get_db_config rels with
  | none => none
  | some db => some { threads := threads, duration := duration, db_info := db }

end DatabaseRelationManager

/-- Raw field values handed to the pydantic root validator of
DPBenchmarkBaseDatabaseModel (src/benchmark/constants.py); none stands for an
absent or None field. -/
structure FieldValues where
  hosts : Option (List String)
  unix_socket : Option String
  username : Option String
  password : Option String
  db_name : Option String
deriving DecidableEq

/-- Field values after validate_if_missing_params ran: the validator may
write the keys "host" and "unix_socket" of the dict. -/
structure ValidatedFieldValues where
  hosts : Option (List String)
  unix_socket : Option String
  host : Option String
  username : Option String
  password : Option String
  db_name : Option String
deriving DecidableEq

/-- Errors DPBenchmarkMissingOptionsError is raised with inside
validate_if_missing_params: the list of missing required fields, or the
"Missing endpoint as unix_socket OR host:port" message. -/
inductive ValidationError where
  | missingOptions (missing_param : List String)
  | missingEndpoint
deriving DecidableEq

/-- The missing_param list built by the first loop of
validate_if_missing_params (src/benchmark/constants.py), in source order. -/
def missing_params (v : FieldValues) : List String :=
  (if v.username = none then ["username"] else [])
  ++ (if v.password = none then ["password"] else [])
  ++ (if v.db_name = none then ["db_name"] else [])
  ++ (if v.hosts = none then ["hosts"] else [])

/-- Python truthiness of an optional string: None and the empty string are
falsy. -/
def strTruthy : Option String → Bool
  | none => false
  | some s => decide (s ≠ "")

/-- DPBenchmarkBaseDatabaseModel.validate_if_missing_params
(src/benchmark/constants.py).  path_exists stands for os.path.exists.  After
the required-field check the validator either sets the key "host" to the
empty string (when the unix socket path exists) or overwrites "unix_socket"
with the empty string, then raises unless one of the keys "host" and
"unix_socket" is truthy. -/
def validate_if_missing_params (path_exists : String → Bool) (v : FieldValues) :
    Except ValidationError ValidatedFieldValues :=
  if missing_params v ≠ [] then
    Except.error (ValidationError.missingOptions (missing_params v))
  else
    let w : ValidatedFieldValues :=
      if path_exists (v.unix_socket.getD "") then
        { hosts := v.hosts, unix_socket := v.unix_socket, host := some "",
          username := v.username, password := v.password, db_name := v.db_name }
      else
        { hosts := v.hosts, unix_socket := some "", host := none,
          username := v.username, password := v.password, db_name := v.db_name }
    if strTruthy w.host = false ∧ strTruthy w.unix_socket = false then
      Except.error ValidationError.missingEndpoint
    else
      Except.ok w

namespace DPBenchmarkService

/-- Outcomes of the three underlying calls DPBenchmarkService.unset makes
(src/benchmark/service.py): self.stop(), os.remove(self.svc_path) and
daemon_reload().  An error value stands for the call raising. -/
structure UnsetEnv where
  stopResult : Except Unit Bool
  removeResult : Except Unit Unit
  reloadResult : Except Unit Bool
deriving DecidableEq

/-- Which of the three cleanup steps of unset were actually invoked. -/
structure UnsetTrace where
  stopAttempted : Bool
  removeAttempted : Bool
  reloadAttempted : Bool
deriving DecidableEq

/-- DPBenchmarkService.unset (src/benchmark/service.py): inside a single
try/except that swallows every exception, run stop, then remove the service
file, then daemon_reload, returning daemon_reload() and result; the except
path returns Python None, modelled as none.  The trace records which steps
ran before an exception cut the sequence short. -/
def unset (env : UnsetEnv) : Option Bool × UnsetTrace :=
  match env.stopResult with
  | Except.error _ =>
      (none, { stopAttempted := true, removeAttempted := false, reloadAttempted := false })
  | Except.ok result =>
    match env.removeResult with
    | Except.error _ =>
        (none, { stopAttempted := true, removeAttempted := true, reloadAttempted := false })
    | Except.ok _ =>
      match env.reloadResult with
      | Except.error _ =>
          (none, { stopAttempted := true, removeAttempted := true, reloadAttempted := true })
      | Except.ok reload =>
          (some (reload && result),
           { stopAttempted := true, removeAttempted := true, reloadAttempted := true })

end DPBenchmarkService

namespace DPBenchmarkCharm

/-- DPBenchmarkCharm.check (src/benchmark/benchmark_charm.py): wrap the
result of self.benchmark_status.check().  A DPBenchmarkIsInWrongStateError
is caught: the event, when given, is deferred (the Bool of the result) and
None is returned; an ok phase passes through; any other exception
propagates. -/
def check (inner : Except BenchError DPBenchmarkExecStatus) (event : Option Unit) :
    Except BenchError (Option DPBenchmarkExecStatus × Bool) :=
  match inner with
  | Except.ok p => Except.ok (some p, false)
  | Except.error (BenchError.isInWrongState _ _) => Except.ok (none, event.isSome)
  | Except.error e => Except.error e

end DPBenchmarkCharm

/-- C5: for every combination of worker-handle predicate values, the derived
worker phase is UNSET if is_prepared is false; otherwise ERROR if is_failed;
otherwise RUNNING if is_running; otherwise STOPPED if is_stopped; otherwise
PREPARED — evaluated in exactly this priority order, so exactly one phase is
returned for every input. -/
theorem C5_service_status_priority (svc : DPBenchmarkServiceState) :
    (svc.is_prepared = false →
      BenchmarkStatus.service_status svc = DPBenchmarkExecStatus.UNSET)
  ∧ (svc.is_prepared = true → svc.is_failed = true →
      BenchmarkStatus.service_status svc = DPBenchmarkExecStatus.ERROR)
  ∧ (svc.is_prepared = true → svc.is_failed = false → svc.is_running = true →
      BenchmarkStatus.service_status svc = DPBenchmarkExecStatus.RUNNING)
  ∧ (svc.is_prepared = true → svc.is_failed = false → svc.is_running = false →
      svc.is_stopped = true →
      BenchmarkStatus.service_status svc = DPBenchmarkExecStatus.STOPPED)
  ∧ (svc.is_prepared = true → svc.is_failed = false → svc.is_running = false →
      svc.is_stopped = false →
      BenchmarkStatus.service_status svc = DPBenchmarkExecStatus.PREPARED) := by
  obtain ⟨p, f, r, s⟩ := svc
  cases p <;> cases f <;> cases r <;> cases s <;>
    simp [BenchmarkStatus.service_status]

/-- Witness for C5 at concrete predicate values, one per priority branch. -/
theorem C5_service_status_priority_witness :
    BenchmarkStatus.service_status ⟨false, true, true, true⟩ = DPBenchmarkExecStatus.UNSET
  ∧ BenchmarkStatus.service_status ⟨true, true, true, true⟩ = DPBenchmarkExecStatus.ERROR
  ∧ BenchmarkStatus.service_status ⟨true, false, true, true⟩ = DPBenchmarkExecStatus.RUNNING
  ∧ BenchmarkStatus.service_status ⟨true, false, false, true⟩ = DPBenchmarkExecStatus.STOPPED
  ∧ BenchmarkStatus.service_status ⟨true, false, false, false⟩ = DPBenchmarkExecStatus.PREPARED :=
  ⟨(C5_service_status_priority _).1 rfl,
   (C5_service_status_priority _).2.1 rfl rfl,
   (C5_service_status_priority _).2.2.1 rfl rfl rfl,
   (C5_service_status_priority _).2.2.2.1 rfl rfl rfl rfl,
   (C5_service_status_priority _).2.2.2.2 rfl rfl rfl rfl⟩

/-- C6: the wrapping entry point check(event) converts a wrong-state error
from the underlying status reconciliation into a deferral — the triggering
event (when present) is deferred and None is returned — while an ok phase
passes through and every other error kind propagates unchanged. -/
theorem C6_wrong_state_deferred (u a p : DPBenchmarkExecStatus) (event : Option Unit) :
    DPBenchmarkCharm.check (Except.error (BenchError.isInWrongState u a)) event
      = Except.ok (none, event.isSome)
  ∧ DPBenchmarkCharm.check (Except.ok p) event = Except.ok (some p, false)
  ∧ DPBenchmarkCharm.check (Except.error BenchError.multipleRelationsToDB) event
      = Except.error BenchError.multipleRelationsToDB
  ∧ DPBenchmarkCharm.check (Except.error BenchError.missingOptions) event
      = Except.error BenchError.missingOptions
  ∧ DPBenchmarkCharm.check (Except.error BenchError.execError) event
      = Except.error BenchError.execError
  ∧ DPBenchmarkCharm.check (Except.error BenchError.execFailed) event
      = Except.error BenchError.execFailed :=
  ⟨rfl, rfl, rfl, rfl, rfl, rfl⟩

/-- C9 counterexample: when the stop step raises, unset neither attempts
the remove step (so the steps are not attempted independently) nor returns
false (it returns Python None). -/
theorem C9_counterexample_stop_raises :
    (DPBenchmarkService.unset
        { stopResult := Except.error (), removeResult := Except.ok (),
          reloadResult := Except.ok true }).2.removeAttempted = false
  ∧ (DPBenchmarkService.unset
        { stopResult := Except.error (), removeResult := Except.ok (),
          reloadResult := Except.ok true }).1 ≠ some false := by
  decide

/-- C9 amended: unset never raises — every underlying-step exception is
swallowed by its single try/except — but the steps are sequential, not
independent: a step that raises skips all later steps, and any raise makes
unset return none (Python None, falsy) rather than false; only the
all-steps-succeed path returns the boolean daemon_reload() and stop(). -/
theorem C9_unset_never_raises (rr : Except Unit Unit) (lr : Except Unit Bool) (b c : Bool) :
    DPBenchmarkService.unset
        { stopResult := Except.error (), removeResult := rr, reloadResult := lr }
      = (none, { stopAttempted := true, removeAttempted := false, reloadAttempted := false })
  ∧ DPBenchmarkService.unset
        { stopResult := Except.ok b, removeResult := Except.error (), reloadResult := lr }
      = (none, { stopAttempted := true, removeAttempted := true, reloadAttempted := false })
  ∧ DPBenchmarkService.unset
        { stopResult := Except.ok b, removeResult := Except.ok (),
          reloadResult := Except.error () }
      = (none, { stopAttempted := true, removeAttempted := true, reloadAttempted := true })
  ∧ DPBenchmarkService.unset
        { stopResult := Except.ok b, removeResult := Except.ok (), reloadResult := Except.ok c }
      = (some (c && b), { stopAttempted := true, removeAttempted := true, reloadAttempted := true }) :=
  ⟨rfl, rfl, rfl, rfl⟩

/-- C7: the validator diverges from the claim.  First conjunct: with
username, password, db_name and a host list all supplied and no unix socket
(no such path on the filesystem), construction fails with the
missing-endpoint error although the claim requires it to succeed — the
endpoint check reads the never-populated key "host" instead of "hosts".
Second conjunct: empty username, password and db_name are accepted when the
unix-socket path exists, although the claim requires non-empty values. -/
theorem C7_validator_rejects_hosts_only :
    validate_if_missing_params (fun _ => false)
      { hosts := some ["localhost:9200"], unix_socket := none,
        username := some "user", password := some "pass", db_name := some "bench" }
      = Except.error ValidationError.missingEndpoint
  ∧ validate_if_missing_params (fun s => s == "/run/bench.sock")
      { hosts := some [], unix_socket := some "/run/bench.sock",
        username := some "", password := some "", db_name := some "" }
      = Except.ok { hosts := some [], unix_socket := some "/run/bench.sock", host := some "",
                    username := some "", password := some "", db_name := some "" } := by
  decide

/-- C4 counterexample: with two candidates independently CONFIGURED,
get_db_config silently returns the first candidate's options (and
get_execution_options builds from them) instead of raising the
multi-backend conflict error. -/
theorem C4_counterexample_two_configured :
    DatabaseRelationManager.get_db_config
        [(DatabaseRelationStatus.CONFIGURED, 1), (DatabaseRelationStatus.CONFIGURED, 2)]
      = some 1
  ∧ DatabaseRelationManager.get_execution_options 4 180
        [(DatabaseRelationStatus.CONFIGURED, 1), (DatabaseRelationStatus.CONFIGURED, 2)]
      = some { threads := 4, duration := 180, db_info := 1 } := by
  decide

/-- C4 amended: get_db_config never raises the multi-backend conflict
error — it returns the options of the first CONFIGURED candidate in relation
order, or none when no candidate is CONFIGURED — and get_execution_options
maps the charm config over that result. -/
theorem C4_get_db_config_first_configured {α : Type}
    (rels : List (DatabaseRelationStatus × α)) (t d : Int) :
    DatabaseRelationManager.get_db_config rels
      = (rels.find? (fun pr => decide (pr.1 = DatabaseRelationStatus.CONFIGURED))).map Prod.snd
  ∧ DatabaseRelationManager.get_execution_options t d rels
      = (DatabaseRelationManager.get_db_config rels).map
          (fun db => { threads := t, duration := d, db_info := db }) := by
  constructor
  · induction rels with
    | nil => rfl
    | cons hd tl ih =>
      obtain ⟨s, o⟩ := hd
      by_cases hs : s = DatabaseRelationStatus.CONFIGURED
      · subst hs
        simp [DatabaseRelationManager.get_db_config, List.find?]
      · simp [DatabaseRelationManager.get_db_config, List.find?, hs, ih]
  · unfold DatabaseRelationManager.get_execution_options
    cases DatabaseRelationManager.get_db_config rels <;> rfl

/-- C10: set on a unit with the relation present writes this unit's own
record; on a non-leader the app record and the other units' records are left
unchanged, while on the leader the app record is written to the same value. -/
theorem C10_set_frame (st : StatusState) (r : RelationData) (s : DPBenchmarkExecStatus)
    (hrel : st.relation = some r) :
    (st.isLeader = false →
      BenchmarkStatus.set st s = { st with relation := some { r with unitStatus := some s } })
  ∧ (st.isLeader = true →
      BenchmarkStatus.set st s
        = { st with relation := some { r with appStatus := some s, unitStatus := some s } }) := by
  constructor <;> intro hl <;> simp [BenchmarkStatus.set, hrel, hl]

/-- Witness for C10 at a concrete non-leader state and a concrete leader
state. -/
theorem C10_set_frame_witness :
    BenchmarkStatus.set
        { relation := some { appStatus := some DPBenchmarkExecStatus.RUNNING,
                             unitStatus := some DPBenchmarkExecStatus.UNSET,
                             otherUnits := [none] },
          isLeader := false, plannedUnits := 3,
          svc := ⟨true, false, true, false⟩ }
        DPBenchmarkExecStatus.RUNNING
      = { relation := some { appStatus := some DPBenchmarkExecStatus.RUNNING,
                             unitStatus := some DPBenchmarkExecStatus.RUNNING,
                             otherUnits := [none] },
          isLeader := false, plannedUnits := 3,
          svc := ⟨true, false, true, false⟩ }
  ∧ BenchmarkStatus.set
        { relation := some { appStatus := some DPBenchmarkExecStatus.UNSET,
                             unitStatus := some DPBenchmarkExecStatus.UNSET,
                             otherUnits := [] },
          isLeader := true, plannedUnits := 2,
          svc := ⟨true, false, false, true⟩ }
        DPBenchmarkExecStatus.PREPARED
      = { relation := some { appStatus := some DPBenchmarkExecStatus.PREPARED,
                             unitStatus := some DPBenchmarkExecStatus.PREPARED,
                             otherUnits := [] },
          isLeader := true, plannedUnits := 2,
          svc := ⟨true, false, false, true⟩ } :=
  ⟨(C10_set_frame _ _ _ rfl).1 rfl, (C10_set_frame _ _ _ rfl).2 rfl⟩

/-- C1: on a non-leader unit, when the cluster exists (relation present and
more than one planned unit) and no record shows ERROR, check first writes
the computed worker phase into this unit's own record (in both outcomes),
then returns the worker phase when it equals the app record and raises the
wrong-state error carrying both phases when it differs. -/
theorem C1_noncoordinator_check (st : StatusState) (r : RelationData)
    (hrel : st.relation = some r) (hn : 1 < st.plannedUnits)
    (herr : BenchmarkStatus.has_error_happened r = false)
    (hl : st.isLeader = false) :
    (BenchmarkStatus.check st).2
      = { st with
          relation := some { r with unitStatus := some (BenchmarkStatus.service_status st.svc) } }
  ∧ (BenchmarkStatus.service_status st.svc = r.appStatus.getD DPBenchmarkExecStatus.UNSET →
      (BenchmarkStatus.check st).1 = Except.ok (BenchmarkStatus.service_status st.svc))
  ∧ (BenchmarkStatus.service_status st.svc ≠ r.appStatus.getD DPBenchmarkExecStatus.UNSET →
      (BenchmarkStatus.check st).1
        = Except.error (BenchError.isInWrongState (BenchmarkStatus.service_status st.svc)
            (r.appStatus.getD DPBenchmarkExecStatus.UNSET))) := by
  have hn' : ¬ st.plannedUnits ≤ 1 := by omega
  refine ⟨?_, fun heq => ?_, fun hne => ?_⟩
  · by_cases heq : BenchmarkStatus.service_status st.svc
        = r.appStatus.getD DPBenchmarkExecStatus.UNSET <;>
      simp [BenchmarkStatus.check, BenchmarkStatus.set, hrel, hn', herr, hl, heq]
  · simp [BenchmarkStatus.check, hrel, hn', herr, hl, heq]
  · simp [BenchmarkStatus.check, hrel, hn', herr, hl, hne]

/-- Witness for C1: a concrete matching cycle returns the worker phase, a
concrete mismatching cycle raises the wrong-state error, and in the
mismatching cycle the unit record was still written first. -/
theorem C1_noncoordinator_check_witness :
    (BenchmarkStatus.check
        { relation := some { appStatus := some DPBenchmarkExecStatus.RUNNING,
                             unitStatus := some DPBenchmarkExecStatus.UNSET,
                             otherUnits := [] },
          isLeader := false, plannedUnits := 3,
          svc := ⟨true, false, true, false⟩ }).1
      = Except.ok DPBenchmarkExecStatus.RUNNING
  ∧ (BenchmarkStatus.check
        { relation := some { appStatus := some DPBenchmarkExecStatus.PREPARED,
                             unitStatus := some DPBenchmarkExecStatus.PREPARED,
                             otherUnits := [] },
          isLeader := false, plannedUnits := 3,
          svc := ⟨true, false, true, false⟩ }).1
      = Except.error
          (BenchError.isInWrongState DPBenchmarkExecStatus.RUNNING DPBenchmarkExecStatus.PREPARED)
  ∧ (BenchmarkStatus.check
        { relation := some { appStatus := some DPBenchmarkExecStatus.PREPARED,
                             unitStatus := some DPBenchmarkExecStatus.PREPARED,
                             otherUnits := [] },
          isLeader := false, plannedUnits := 3,
          svc := ⟨true, false, true, false⟩ }).2
      = { relation := some { appStatus := some DPBenchmarkExecStatus.PREPARED,
                             unitStatus := some DPBenchmarkExecStatus.RUNNING,
                             otherUnits := [] },
          isLeader := false, plannedUnits := 3,
          svc := ⟨true, false, true, false⟩ } :=
  ⟨(C1_noncoordinator_check
      ⟨some ⟨some DPBenchmarkExecStatus.RUNNING, some DPBenchmarkExecStatus.UNSET, []⟩,
       false, 3, ⟨true, false, true, false⟩⟩
      ⟨some DPBenchmarkExecStatus.RUNNING, some DPBenchmarkExecStatus.UNSET, []⟩
      rfl (by decide) (by decide) rfl).2.1 (by decide),
   (C1_noncoordinator_check
      ⟨some ⟨some DPBenchmarkExecStatus.PREPARED, some DPBenchmarkExecStatus.PREPARED, []⟩,
       false, 3, ⟨true, false, true, false⟩⟩
      ⟨some DPBenchmarkExecStatus.PREPARED, some DPBenchmarkExecStatus.PREPARED, []⟩
      rfl (by decide) (by decide) rfl).2.2 (by decide),
   (C1_noncoordinator_check
      ⟨some ⟨some DPBenchmarkExecStatus.PREPARED, some DPBenchmarkExecStatus.PREPARED, []⟩,
       false, 3, ⟨true, false, true, false⟩⟩
      ⟨some DPBenchmarkExecStatus.PREPARED, some DPBenchmarkExecStatus.PREPARED, []⟩
      rfl (by decide) (by decide) rfl).1⟩

/-- C2: when the cluster exists and any peer record, this unit's own record
or the app record reads ERROR, check returns ERROR on every unit —
whatever the worker phase or leadership — and leaves the databags
untouched, so a repeated check returns ERROR again; and the error condition
is cleared exactly by resetting the records to UNSET (no other unit showing
ERROR), as the clean action does through set. -/
theorem C2_sticky_error (st : StatusState) (r : RelationData)
    (hrel : st.relation = some r) (hn : 1 < st.plannedUnits)
    (herr : BenchmarkStatus.has_error_happened r = true) :
    BenchmarkStatus.check st = (Except.ok DPBenchmarkExecStatus.ERROR, st)
  ∧ BenchmarkStatus.check (BenchmarkStatus.check st).2
      = (Except.ok DPBenchmarkExecStatus.ERROR, st)
  ∧ (∀ r2 : RelationData, r2.appStatus = some DPBenchmarkExecStatus.UNSET →
      r2.unitStatus = some DPBenchmarkExecStatus.UNSET →
      (∀ u ∈ r2.otherUnits, u ≠ some DPBenchmarkExecStatus.ERROR) →
      BenchmarkStatus.has_error_happened r2 = false) := by
  have hn' : ¬ st.plannedUnits ≤ 1 := by omega
  have h1 : BenchmarkStatus.check st = (Except.ok DPBenchmarkExecStatus.ERROR, st) := by
    simp [BenchmarkStatus.check, hrel, hn', herr]
  refine ⟨h1, by simp [h1], fun r2 ha hu ho => ?_⟩
  simp [BenchmarkStatus.has_error_happened, ha, hu]
  intro u hm
  exact ho u hm

/-- Witness for C2 at a concrete state whose app record is ERROR: check
returns ERROR and leaves the state unchanged although the local worker is
RUNNING. -/
theorem C2_sticky_error_witness :
    BenchmarkStatus.check
        { relation := some { appStatus := some DPBenchmarkExecStatus.ERROR,
                             unitStatus := some DPBenchmarkExecStatus.UNSET,
                             otherUnits := [] },
          isLeader := true, plannedUnits := 2,
          svc := ⟨true, false, true, false⟩ }
      = (Except.ok DPBenchmarkExecStatus.ERROR,
         { relation := some { appStatus := some DPBenchmarkExecStatus.ERROR,
                              unitStatus := some DPBenchmarkExecStatus.UNSET,
                              otherUnits := [] },
           isLeader := true, plannedUnits := 2,
           svc := ⟨true, false, true, false⟩ }) :=
  (C2_sticky_error _ _ rfl (by decide) (by decide)).1

/-- The aggregation loop returns its carried status unchanged when every
remaining relation status is NOT_AVAILABLE. -/
lemma check_go_of_no_candidate (l : List DatabaseRelationStatus)
    (status : DatabaseRelationStatus)
    (h : l.filter (fun s => decide (s ≠ DatabaseRelationStatus.NOT_AVAILABLE)) = []) :
    DatabaseRelationManager.check_go l status = Except.ok status := by
  induction l with
  | nil => rfl
  | cons hd tl ih =>
    by_cases hh : hd = DatabaseRelationStatus.NOT_AVAILABLE
    · rw [List.filter_cons_of_neg (by simp [hh])] at h
      simp only [DatabaseRelationManager.check_go]
      rw [if_neg (by simp [hh])]
      exact ih h
    · rw [List.filter_cons_of_pos (by simp [hh])] at h
      exact absurd h (List.cons_ne_nil _ _)

/-- Once the aggregation loop carries a non-NOT_AVAILABLE status, any
further non-NOT_AVAILABLE relation makes it raise the multiple-relations
error. -/
lemma check_go_of_second_candidate (l : List DatabaseRelationStatus)
    (status : DatabaseRelationStatus)
    (hs : status ≠ DatabaseRelationStatus.NOT_AVAILABLE)
    (hl : l.filter (fun s => decide (s ≠ DatabaseRelationStatus.NOT_AVAILABLE)) ≠ []) :
    DatabaseRelationManager.check_go l status = Except.error BenchError.multipleRelationsToDB := by
  induction l with
  | nil => exact absurd rfl hl
  | cons hd tl ih =>
    by_cases hh : hd = DatabaseRelationStatus.NOT_AVAILABLE
    · rw [List.filter_cons_of_neg (by simp [hh])] at hl
      simp only [DatabaseRelationManager.check_go]
      rw [if_neg (by simp [hh])]
      exact ih hl
    · simp only [DatabaseRelationManager.check_go]
      rw [if_pos hh, if_pos hs]

/-- C3: the aggregate status of all candidate relations is NOT_AVAILABLE
when no relation is non-NOT_AVAILABLE, the unique non-NOT_AVAILABLE
relation's status when there is exactly one, and the multiple-relations
error is raised as soon as more than one relation is non-NOT_AVAILABLE. -/
theorem C3_aggregate_status (rels : List DatabaseRelationStatus) :
    (rels.filter (fun s => decide (s ≠ DatabaseRelationStatus.NOT_AVAILABLE)) = [] →
      DatabaseRelationManager.check rels = Except.ok DatabaseRelationStatus.NOT_AVAILABLE)
  ∧ (∀ s, rels.filter (fun s => decide (s ≠ DatabaseRelationStatus.NOT_AVAILABLE)) = [s] →
      DatabaseRelationManager.check rels = Except.ok s)
  ∧ (2 ≤ (rels.filter (fun s => decide (s ≠ DatabaseRelationStatus.NOT_AVAILABLE))).length →
      DatabaseRelationManager.check rels = Except.error BenchError.multipleRelationsToDB) := by
  refine ⟨fun h => check_go_of_no_candidate rels _ h, ?_, ?_⟩
  · induction rels with
    | nil => intro s h; exact List.noConfusion h
    | cons hd tl ih =>
      intro s h
      by_cases hh : hd = DatabaseRelationStatus.NOT_AVAILABLE
      · rw [List.filter_cons_of_neg (by simp [hh])] at h
        have htl := ih s h
        simp only [DatabaseRelationManager.check, DatabaseRelationManager.check_go]
        rw [if_neg (by simp [hh])]
        exact htl
      · rw [List.filter_cons_of_pos (by simp [hh])] at h
        injection h with h1 h2
        subst h1
        simp only [DatabaseRelationManager.check, DatabaseRelationManager.check_go]
        rw [if_pos hh, if_neg (by simp)]
        exact check_go_of_no_candidate tl hd h2
  · induction rels with
    | nil => intro h; exact absurd h (by decide)
    | cons hd tl ih =>
      intro h
      by_cases hh : hd = DatabaseRelationStatus.NOT_AVAILABLE
      · rw [List.filter_cons_of_neg (by simp [hh])] at h
        have htl := ih h
        simp only [DatabaseRelationManager.check, DatabaseRelationManager.check_go]
        rw [if_neg (by simp [hh])]
        exact htl
      · rw [List.filter_cons_of_pos (by simp [hh])] at h
        have htl : tl.filter (fun s => decide (s ≠ DatabaseRelationStatus.NOT_AVAILABLE)) ≠ [] := by
          intro hc
          rw [hc] at h
          simp only [List.length_cons, List.length_nil] at h
          omega
        simp only [DatabaseRelationManager.check, DatabaseRelationManager.check_go]
        rw [if_pos hh, if_neg (by simp)]
        exact check_go_of_second_candidate tl hd hh htl

/-- Witness for C3: zero, one and two non-NOT_AVAILABLE candidate sets. -/
theorem C3_aggregate_status_witness :
    DatabaseRelationManager.check
        [DatabaseRelationStatus.NOT_AVAILABLE, DatabaseRelationStatus.NOT_AVAILABLE]
      = Except.ok DatabaseRelationStatus.NOT_AVAILABLE
  ∧ DatabaseRelationManager.check
        [DatabaseRelationStatus.NOT_AVAILABLE, DatabaseRelationStatus.CONFIGURED]
      = Except.ok DatabaseRelationStatus.CONFIGURED
  ∧ DatabaseRelationManager.check
        [DatabaseRelationStatus.AVAILABLE, DatabaseRelationStatus.CONFIGURED]
      = Except.error BenchError.multipleRelationsToDB :=
  ⟨(C3_aggregate_status
      [DatabaseRelationStatus.NOT_AVAILABLE, DatabaseRelationStatus.NOT_AVAILABLE]).1
      (by decide),
   (C3_aggregate_status
      [DatabaseRelationStatus.NOT_AVAILABLE, DatabaseRelationStatus.CONFIGURED]).2.1
      DatabaseRelationStatus.CONFIGURED (by decide),
   (C3_aggregate_status
      [DatabaseRelationStatus.AVAILABLE, DatabaseRelationStatus.CONFIGURED]).2.2
      (by decide)⟩

/-- C8: check is idempotent — whenever a reconciliation cycle returns a
phase normally, running check again on the databag state it left behind
(with the worker state, leadership and planned units unchanged) returns the
same phase, does not raise, and leaves the state unchanged, the second call
observing exactly the records the first call wrote. -/
theorem C8_check_idempotent (st st1 : StatusState) (p : DPBenchmarkExecStatus)
    (h : BenchmarkStatus.check st = (Except.ok p, st1)) :
    BenchmarkStatus.check st1 = (Except.ok p, st1) := by
  obtain ⟨rel, lead, n, svc⟩ := st
  cases rel with
  | none =>
    simp only [BenchmarkStatus.check, Prod.mk.injEq, Except.ok.injEq] at h
    obtain ⟨hp, hst⟩ := h
    subst hp
    subst hst
    simp [BenchmarkStatus.check]
  | some r =>
    by_cases hn : n ≤ 1
    · simp only [BenchmarkStatus.check, if_pos hn, Prod.mk.injEq, Except.ok.injEq] at h
      obtain ⟨hp, hst⟩ := h
      subst hp
      subst hst
      simp [BenchmarkStatus.check, hn]
    · cases herr : BenchmarkStatus.has_error_happened r with
      | true =>
        simp only [BenchmarkStatus.check, if_neg hn, herr, if_true, Prod.mk.injEq,
          Except.ok.injEq] at h
        obtain ⟨hp, hst⟩ := h
        subst hp
        subst hst
        simp [BenchmarkStatus.check, hn, herr]
      | false =>
        have hA : r.otherUnits.any (fun u => decide (u = some DPBenchmarkExecStatus.ERROR))
            = false := by
          cases hA : r.otherUnits.any (fun u => decide (u = some DPBenchmarkExecStatus.ERROR)) with
          | false => rfl
          | true =>
            simp only [BenchmarkStatus.has_error_happened, hA] at herr
            simp at herr
        have hap : r.appStatus.getD DPBenchmarkExecStatus.UNSET ≠ DPBenchmarkExecStatus.ERROR := by
          intro hx
          simp only [BenchmarkStatus.has_error_happened, hx] at herr
          simp at herr
        cases lead with
        | true =>
          simp only [BenchmarkStatus.check, BenchmarkStatus.set, if_neg hn, herr,
            Bool.false_eq_true, if_false, if_true, Prod.mk.injEq, Except.ok.injEq] at h
          obtain ⟨hp, hst⟩ := h
          subst hp
          subst hst
          by_cases hE : BenchmarkStatus.service_status svc = DPBenchmarkExecStatus.ERROR
          · simp [BenchmarkStatus.check, BenchmarkStatus.has_error_happened, hn, hE]
          · simp [BenchmarkStatus.check, BenchmarkStatus.set, BenchmarkStatus.has_error_happened,
              hn, hE, hA]
        | false =>
          by_cases hsp : BenchmarkStatus.service_status svc
              = r.appStatus.getD DPBenchmarkExecStatus.UNSET
          · have hspE : BenchmarkStatus.service_status svc ≠ DPBenchmarkExecStatus.ERROR := by
              rw [hsp]
              exact hap
            simp only [BenchmarkStatus.check, BenchmarkStatus.set, if_neg hn, herr,
              Bool.false_eq_true, if_false, if_pos hsp, Prod.mk.injEq, Except.ok.injEq] at h
            obtain ⟨hp, hst⟩ := h
            subst hp
            subst hst
            simp [BenchmarkStatus.check, BenchmarkStatus.set, BenchmarkStatus.has_error_happened,
              hn, hA, hsp, hspE, hap]
          · simp only [BenchmarkStatus.check, BenchmarkStatus.set, if_neg hn, herr,
              Bool.false_eq_true, if_false, if_neg hsp, Prod.mk.injEq] at h
            simp at h

/-- Witness for C8: a first cycle on a leader whose unit record is still
absent writes UNSET into both records and returns UNSET; the theorem applied
there shows the second cycle returns the same phase on the written state. -/
theorem C8_check_idempotent_witness :
    BenchmarkStatus.check
        ⟨some ⟨some DPBenchmarkExecStatus.UNSET, some DPBenchmarkExecStatus.UNSET, []⟩,
         true, 2, ⟨false, false, false, false⟩⟩
      = (Except.ok DPBenchmarkExecStatus.UNSET,
         ⟨some ⟨some DPBenchmarkExecStatus.UNSET, some DPBenchmarkExecStatus.UNSET, []⟩,
          true, 2, ⟨false, false, false, false⟩⟩) :=
  C8_check_idempotent
    ⟨some ⟨some DPBenchmarkExecStatus.UNSET, none, []⟩, true, 2, ⟨false, false, false, false⟩⟩
    ⟨some ⟨some DPBenchmarkExecStatus.UNSET, some DPBenchmarkExecStatus.UNSET, []⟩,
     true, 2, ⟨false, false, false, false⟩⟩
    DPBenchmarkExecStatus.UNSET (by decide)

